import Mathlib

/-!
Shallow embedding of `src/frontend.py` (HEALTHHACK-3.0): a medical-report
analysis front-end.  The remote generative-AI model, the places HTTP API and
the UI toolkit are external collaborators; they are modelled as oracles
(functions supplied as arguments), and the observable side effects of the
code (model calls, sleeps, user-visible warnings, HTTP requests, temporary
file creation/deletion) are recorded as explicit event traces.
-/

namespace HealthHack

/-- Constant from `frontend.py`: `MAX_RETRIES = 3`. -/
def MAX_RETRIES : Nat := 3

/-- Constant from `frontend.py`: `RETRY_DELAY = 2` (seconds). -/
def RETRY_DELAY : Nat := 2

/-- Outcome of one call to the remote model (`model.generate_content`), as seen
by the `try`/`except` in `analyze_medical_report`: the call returns text, it
raises a `GoogleAPIError` (caught), or it raises some other exception
(uncaught, propagates). -/
inductive CallOutcome where
  | ok (text : String)
  | apiError (msg : String)
  | fault (msg : String)
deriving Repr, DecidableEq

/-- Observable side effects of `analyze_medical_report`, in order. -/
inductive Event where
  | modelCall
  | warning (msg : String)
  | errorMsg (msg : String)
  | sleep (seconds : Nat)
deriving Repr, DecidableEq

/-- Result of `analyze_medical_report`: a returned string, an uncaught
exception, or the implicit `None` were the loop ever to fall through. -/
inductive AnalyzeResult where
  | returned (text : String)
  | raised (msg : String)
  | noReturn
deriving Repr, DecidableEq

/-- Python `str.split()` with no arguments: maximal runs of non-whitespace
characters (whitespace restricted to the ASCII class Lean's
`Char.isWhitespace` recognises). -/
def pySplit (s : String) : List String :=
  (s.split fun c => c.isWhitespace).filter fun w => w != ""

/-- `fallback_analysis(content, content_type)` from `frontend.py` lines 57-68.
For an image the content argument is ignored, so modelling `content` as a
string is faithful on every reachable call.  The text branch reproduces the
triple-quoted f-string literally, newlines and indentation included. -/
def fallback_analysis (content : String) (content_type : String) : String :=
  if content_type = "image" then
    "Unable to analyze the image due to API issues. Please try again later."
  else
    let word_count := (pySplit content).length
    "\n        Fallback Analysis:\n        - Document Type: Text-based medical report\n        - Word Count: "
      ++ toString word_count
      ++ " words\n        - Unable to analyze content in detail due to AI issues. Please consult a doctor manually.\n        "

/-- The `st.warning` message emitted before each retry (line 50). -/
def retryWarning (attempt : Nat) : String :=
  "An error occurred. Retrying in " ++ toString RETRY_DELAY
    ++ " seconds... (Attempt " ++ toString (attempt + 1) ++ "/"
    ++ toString MAX_RETRIES ++ ")"

/-- The `st.error` message emitted after the final failed attempt (line 53). -/
def exhaustedError (e : String) : String :=
  "Failed to analyze the report after " ++ toString MAX_RETRIES
    ++ " attempts. Error: " ++ e

/-- The body of the `for attempt in range(MAX_RETRIES)` loop of
`analyze_medical_report` (lines 40-54), iterating over the remaining attempt
indices.  `oracle attempt` is the outcome of the remote model call made on
that iteration.  Returns the event trace and the function result. -/
def analyzeLoop (content content_type : String) (oracle : Nat → CallOutcome) :
    List Nat → List Event × AnalyzeResult
  | [] => ([], .noReturn)
  | attempt :: rest =>
    match oracle attempt with
    | .ok t => ([Event.modelCall], .returned t)
    | .fault m => ([Event.modelCall], .raised m)
    | .apiError m =>
      if attempt < MAX_RETRIES - 1 then
        let next := analyzeLoop content content_type oracle rest
        (Event.modelCall :: Event.warning (retryWarning attempt)
           :: Event.sleep RETRY_DELAY :: next.1, next.2)
      else
        ([Event.modelCall, Event.errorMsg (exhaustedError m)],
         .returned (fallback_analysis content content_type))

/-- `analyze_medical_report(content, content_type)` from `frontend.py`
lines 28-54, with the remote model abstracted as an oracle giving each
attempt's outcome. -/
def analyze_medical_report (content content_type : String)
    (oracle : Nat → CallOutcome) : List Event × AnalyzeResult :=
  analyzeLoop content content_type oracle (List.range MAX_RETRIES)

/-- Number of remote-model calls recorded in a trace. -/
def countCalls : List Event → Nat
  | [] => 0
  | Event.modelCall :: rest => countCalls rest + 1
  | _ :: rest => countCalls rest

/-- Number of sleeps recorded in a trace. -/
def countSleeps : List Event → Nat
  | [] => 0
  | Event.sleep _ :: rest => countSleeps rest + 1
  | _ :: rest => countSleeps rest

/-- Every sleep in the trace lasts exactly `RETRY_DELAY` seconds. -/
def allSleepsDelay : List Event → Bool
  | [] => true
  | Event.sleep n :: rest => (n == RETRY_DELAY) && allSleepsDelay rest
  | _ :: rest => allSleepsDelay rest

/-- Every sleep in the trace is immediately followed by a model call: the
wait sits between two consecutive attempts, never after the last one. -/
def eachSleepPrecedesCall : List Event → Bool
  | [] => true
  | Event.sleep _ :: rest =>
    match rest with
    | Event.modelCall :: _ => eachSleepPrecedesCall rest
    | _ => false
  | _ :: rest => eachSleepPrecedesCall rest

/-- `extract_text_from_pdf(pdf_file)` from `frontend.py` lines 70-75.  A PDF
is modelled by its list of per-page extractable texts (a page with no
extractable text contributes `""`, matching `page.extract_text()`); the
function folds `text += page.extract_text()` over the pages. -/
def extract_text_from_pdf (pages : List String) : String :=
  pages.foldl (fun text page => text ++ page) ""

/-- Specification-side concatenation in page order (`t1 ++ t2 ++ ... ++ tN`),
written as the spec states it, to be compared with the source's fold. -/
def concatPages : List String → String
  | [] => ""
  | t :: ts => t ++ concatPages ts

/-- One entry of the places-API `results` array, with the two fields
`get_doctors` reads. -/
structure PlaceEntry where
  name : String
  formatted_address : String
deriving Repr, DecidableEq

/-- The places-API HTTP response as observed by `get_doctors`: the status
code and, for the parsed JSON body, the `results` array when the field is
present (`response.json().get("results", [])` supplies `[]` otherwise). -/
structure PlacesResponse where
  status_code : Nat
  resultsField : Option (List PlaceEntry)
deriving Repr, DecidableEq

/-- The text-search URL built at `frontend.py` line 81. -/
def doctorsUrl (key location specialization : String) : String :=
  "https://maps.googleapis.com/maps/api/place/textsearch/json?query="
    ++ specialization ++ "+doctor+near+" ++ location ++ "&key=" ++ key

/-- `get_doctors(location, specialization)` from `frontend.py` lines 77-87.
`google_maps_api_key` is `none` when the environment variable is unset; `net`
is the HTTP oracle (`requests.get`).  Returns the list of URLs actually
requested together with the returned list of strings. -/
def get_doctors (google_maps_api_key : Option String)
    (net : String → PlacesResponse) (location specialization : String) :
    List String × List String :=
  match google_maps_api_key with
  | none => ([], ["Google Maps API Key not found. Cannot fetch doctor recommendations."])
  | some key =>
    let url := doctorsUrl key location specialization
    let response := net url
    if response.status_code == 200 then
      let results := response.resultsField.getD []
      ([url], (results.take 5).map fun doc => doc.name ++ " - " ++ doc.formatted_address)
    else
      ([url], ["No doctors found or API issue occurred."])

/-- Temporary-file side effects of one analyze action in `main`. -/
inductive TmpEvent where
  | create (path : String)
  | unlink (path : String)
deriving Repr, DecidableEq

/-- The image branch of `main` (`frontend.py` lines 97-118) with a file
uploaded: the upload is written to a temporary file, `Image.open` may raise
on undecodable bytes (`openFaults`), the button may or may not be pressed,
and the analysis call may itself raise an uncaught exception.  Returns the
temporary-file events performed and whether the action ran to completion
(`false` means an unhandled fault aborted it). -/
def image_action (tmp : String) (openFaults button : Bool)
    (content : String) (oracle : Nat → CallOutcome) : List TmpEvent × Bool :=
  if openFaults then
    ([TmpEvent.create tmp], false)
  else if button then
    match (analyze_medical_report content "image" oracle).2 with
    | .raised _ => ([TmpEvent.create tmp], false)
    | _ => ([TmpEvent.create tmp, TmpEvent.unlink tmp], true)
  else
    ([TmpEvent.create tmp, TmpEvent.unlink tmp], true)

/-- The pdf branch of `main` (`frontend.py` lines 120-143) with a file
uploaded: the temporary file is created only once the button is pressed;
`extract` is the outcome of PDF parsing (`Except.error` models an uncaught
parse fault, `Except.ok pages` the per-page texts); the analysis call may
raise an uncaught exception.  Returns the temporary-file events performed
and whether the action ran to completion. -/
def pdf_action (tmp : String) (button : Bool)
    (extract : Except String (List String)) (oracle : Nat → CallOutcome) :
    List TmpEvent × Bool :=
  if button then
    match extract with
    | .error _ => ([TmpEvent.create tmp], false)
    | .ok pages =>
      match (analyze_medical_report (extract_text_from_pdf pages) "text" oracle).2 with
      | .raised _ => ([TmpEvent.create tmp], false)
      | _ => ([TmpEvent.create tmp, TmpEvent.unlink tmp], true)
  else
    ([], true)

/-- String `pat` occurs contiguously inside `s`. -/
def containsStr (s pat : String) : Prop :=
  pat.data <:+: s.data

theorem containsStr_of_eq (s a pat b : String) (h : s = a ++ pat ++ b) :
    containsStr s pat := by
  refine ⟨a.data, b.data, ?_⟩
  simp [h, String.data_append]

/-- C1: every invocation of `analyze_medical_report` makes at most 3 remote
model calls; every wait in the trace lasts exactly 2 seconds and sits
immediately before the next attempt, so no wait follows the final failed
attempt; and the number of waits is exactly one less than the number of
calls (one wait between each pair of consecutive failed attempts). -/
theorem C1_retry_policy (content content_type : String) (oracle : Nat → CallOutcome) :
    countCalls (analyze_medical_report content content_type oracle).1 ≤ 3 ∧
    allSleepsDelay (analyze_medical_report content content_type oracle).1 = true ∧
    eachSleepPrecedesCall (analyze_medical_report content content_type oracle).1 = true ∧
    countSleeps (analyze_medical_report content content_type oracle).1 + 1 =
      countCalls (analyze_medical_report content content_type oracle).1 := by
  have hr : List.range MAX_RETRIES = [0, 1, 2] := rfl
  unfold analyze_medical_report
  rw [hr]
  cases h0 : oracle 0 <;> cases h1 : oracle 1 <;> cases h2 : oracle 2 <;>
    simp +decide [analyzeLoop, h0, h1, h2, countCalls, countSleeps, allSleepsDelay,
      eachSleepPrecedesCall, MAX_RETRIES, RETRY_DELAY]

theorem analyze_all_fail (content content_type : String) (oracle : Nat → CallOutcome)
    (e0 e1 e2 : String) (h0 : oracle 0 = CallOutcome.apiError e0)
    (h1 : oracle 1 = CallOutcome.apiError e1) (h2 : oracle 2 = CallOutcome.apiError e2) :
    analyze_medical_report content content_type oracle =
      ([Event.modelCall, Event.warning (retryWarning 0), Event.sleep RETRY_DELAY,
        Event.modelCall, Event.warning (retryWarning 1), Event.sleep RETRY_DELAY,
        Event.modelCall, Event.errorMsg (exhaustedError e2)],
       AnalyzeResult.returned (fallback_analysis content content_type)) := by
  have hr : List.range MAX_RETRIES = [0, 1, 2] := rfl
  unfold analyze_medical_report
  rw [hr]
  simp +decide [analyzeLoop, h0, h1, h2, MAX_RETRIES]

/-- C2: when all three attempts raise an API error, the image result is
exactly the fixed apology string, and the text result contains the literal
whitespace-split word count of the input together with the statement that
detailed analysis was not performed. -/
theorem C2_exhausted_fallback (content : String) (oracle : Nat → CallOutcome)
    (e0 e1 e2 : String) (h0 : oracle 0 = CallOutcome.apiError e0)
    (h1 : oracle 1 = CallOutcome.apiError e1) (h2 : oracle 2 = CallOutcome.apiError e2) :
    (analyze_medical_report content "image" oracle).2 =
      AnalyzeResult.returned
        "Unable to analyze the image due to API issues. Please try again later." ∧
    ∃ t, (analyze_medical_report content "text" oracle).2 = AnalyzeResult.returned t ∧
      containsStr t (toString (pySplit content).length) ∧
      containsStr t "Unable to analyze content in detail due to AI issues" := by
  have himg := analyze_all_fail content "image" oracle e0 e1 e2 h0 h1 h2
  have htxt := analyze_all_fail content "text" oracle e0 e1 e2 h0 h1 h2
  refine ⟨?_, fallback_analysis content "text", ?_, ?_, ?_⟩
  · rw [himg]; rfl
  · rw [htxt]
  · apply containsStr_of_eq _
      "\n        Fallback Analysis:\n        - Document Type: Text-based medical report\n        - Word Count: "
      (toString (pySplit content).length)
      " words\n        - Unable to analyze content in detail due to AI issues. Please consult a doctor manually.\n        "
    simp [fallback_analysis]
  · apply containsStr_of_eq _
      ("\n        Fallback Analysis:\n        - Document Type: Text-based medical report\n        - Word Count: "
        ++ toString (pySplit content).length ++ " words\n        - ")
      "Unable to analyze content in detail due to AI issues"
      ". Please consult a doctor manually.\n        "
    simp only [fallback_analysis, String.append_assoc]
    rw [if_neg (by decide)]
    congr 2

theorem foldl_append_eq (pages : List String) (init : String) :
    pages.foldl (fun text page => text ++ page) init = init ++ concatPages pages := by
  induction pages generalizing init with
  | nil => simp [concatPages, String.append_empty]
  | cons p ps ih => simp [concatPages, ih, String.append_assoc]

theorem concatPages_append (l1 l2 : List String) :
    concatPages (l1 ++ l2) = concatPages l1 ++ concatPages l2 := by
  induction l1 with
  | nil => simp [concatPages, String.empty_append]
  | cons p ps ih => simp [concatPages, ih, String.append_assoc]

/-- C3: `extract_text_from_pdf` returns the per-page extractable texts
concatenated in page order, and a page with no extractable text (the empty
string) contributes nothing; the function is total, so no error is raised. -/
theorem C3_pdf_concat (pages pre post : List String) :
    extract_text_from_pdf pages = concatPages pages ∧
    extract_text_from_pdf (pre ++ [""] ++ post) = extract_text_from_pdf (pre ++ post) := by
  constructor
  · rw [extract_text_from_pdf, foldl_append_eq, String.empty_append]
  · rw [extract_text_from_pdf, extract_text_from_pdf, foldl_append_eq, foldl_append_eq,
      concatPages_append, concatPages_append, concatPages_append]
    simp [concatPages, String.empty_append]

/-- Witness for C2 at a concrete oracle that always raises an API error and
the two-word input "hello world". -/
theorem C2_exhausted_fallback_witness :
    ((fun _ => CallOutcome.apiError "quota") 0 = CallOutcome.apiError "quota") ∧
    ((analyze_medical_report "hello world" "image" (fun _ => CallOutcome.apiError "quota")).2 =
      AnalyzeResult.returned
        "Unable to analyze the image due to API issues. Please try again later." ∧
    ∃ t, (analyze_medical_report "hello world" "text"
            (fun _ => CallOutcome.apiError "quota")).2 = AnalyzeResult.returned t ∧
      containsStr t (toString (pySplit "hello world").length) ∧
      containsStr t "Unable to analyze content in detail due to AI issues") :=
  ⟨rfl, C2_exhausted_fallback "hello world" (fun _ => CallOutcome.apiError "quota")
    "quota" "quota" "quota" rfl rfl rfl⟩

/-- C4: on a 200 response whose results array has more than 5 entries,
`get_doctors` returns exactly the first 5 entries, in order, each formatted
as name, space, hyphen, space, address. -/
theorem C4_first_five (key location specialization : String)
    (net : String → PlacesResponse) (entries : List PlaceEntry)
    (hresp : net (doctorsUrl key location specialization) =
      { status_code := 200, resultsField := some entries })
    (hlen : 5 < entries.length) :
    (get_doctors (some key) net location specialization).2 =
      (entries.take 5).map (fun doc => doc.name ++ " - " ++ doc.formatted_address) ∧
    (get_doctors (some key) net location specialization).2.length = 5 := by
  constructor
  · simp [get_doctors, hresp]
  · simp [get_doctors, hresp, List.length_take]
    omega

/-- Results array of seven entries for exercising the truncation to five. -/
def sevenDoctors : List PlaceEntry :=
  [⟨"Dr. A", "Addr A"⟩, ⟨"Dr. B", "Addr B"⟩, ⟨"Dr. C", "Addr C"⟩,
   ⟨"Dr. D", "Addr D"⟩, ⟨"Dr. E", "Addr E"⟩, ⟨"Dr. F", "Addr F"⟩,
   ⟨"Dr. G", "Addr G"⟩]

/-- Witness for C4 with a 7-entry results array. -/
theorem C4_first_five_witness :
    ((fun _ => (⟨200, some sevenDoctors⟩ : PlacesResponse)) : String → PlacesResponse)
        (doctorsUrl "KEY" "Bangalore" "Cardiologist") =
      (⟨200, some sevenDoctors⟩ : PlacesResponse) ∧
    5 < sevenDoctors.length ∧
    ((get_doctors (some "KEY") (fun _ => (⟨200, some sevenDoctors⟩ : PlacesResponse))
        "Bangalore" "Cardiologist").2 =
      (sevenDoctors.take 5).map (fun doc => doc.name ++ " - " ++ doc.formatted_address) ∧
     (get_doctors (some "KEY") (fun _ => (⟨200, some sevenDoctors⟩ : PlacesResponse))
        "Bangalore" "Cardiologist").2.length = 5) :=
  ⟨rfl, by decide, C4_first_five "KEY" "Bangalore" "Cardiologist" _ _ rfl (by decide)⟩

/-- Counterexample to C5 as stated: with status 200 and the `results` field
missing from the body, `get_doctors` returns the empty list, not a
single-element "no doctors found" message. -/
theorem C5_counterexample :
    (get_doctors (some "KEY") (fun _ => { status_code := 200, resultsField := none })
        "Bangalore" "General Practitioner").2 = [] ∧
    ¬ (get_doctors (some "KEY") (fun _ => { status_code := 200, resultsField := none })
        "Bangalore" "General Practitioner").2.length = 1 := by
  constructor <;> simp [get_doctors]

/-- C5 amended: on a 200 response whose JSON body is missing the `results`
field, `get_doctors` returns the empty sequence (the `.get` default `[]`),
not a "no doctors found" message. -/
theorem C5_missing_results_empty (key location specialization : String)
    (net : String → PlacesResponse)
    (hstatus : (net (doctorsUrl key location specialization)).status_code = 200)
    (hmissing : (net (doctorsUrl key location specialization)).resultsField = none) :
    (get_doctors (some key) net location specialization).2 = [] := by
  simp [get_doctors, hstatus, hmissing]

/-- Witness for the amended C5. -/
theorem C5_missing_results_empty_witness :
    (((fun _ => ({ status_code := 200, resultsField := none } : PlacesResponse)) :
        String → PlacesResponse)
      (doctorsUrl "KEY" "Bangalore" "General Practitioner")).status_code = 200 ∧
    (get_doctors (some "KEY")
      (fun _ => { status_code := 200, resultsField := none })
      "Bangalore" "General Practitioner").2 = [] :=
  ⟨rfl, C5_missing_results_empty "KEY" "Bangalore" "General Practitioner" _ rfl rfl⟩

/-- C6: on any non-200 status, whatever the body holds, `get_doctors` returns
exactly the single generic "no doctors found" string and has made exactly one
request (no retry). -/
theorem C6_non_200 (key location specialization : String)
    (net : String → PlacesResponse)
    (hstatus : (net (doctorsUrl key location specialization)).status_code ≠ 200) :
    get_doctors (some key) net location specialization =
      ([doctorsUrl key location specialization],
       ["No doctors found or API issue occurred."]) := by
  simp [get_doctors, hstatus]

/-- Witness for C6 at status 404 with a body that even holds results. -/
theorem C6_non_200_witness :
    (((fun _ => (⟨404, some [⟨"Dr. X", "Addr X"⟩]⟩ : PlacesResponse)) :
        String → PlacesResponse)
      (doctorsUrl "KEY" "Pune" "Dermatologist")).status_code ≠ 200 ∧
    get_doctors (some "KEY")
      (fun _ => (⟨404, some [⟨"Dr. X", "Addr X"⟩]⟩ : PlacesResponse))
      "Pune" "Dermatologist" =
      ([doctorsUrl "KEY" "Pune" "Dermatologist"],
       ["No doctors found or API issue occurred."]) :=
  ⟨by decide, C6_non_200 "KEY" "Pune" "Dermatologist" _ (by decide)⟩

/-- C7: with no configured places-API credential, `get_doctors` issues no
request (empty request trace) and returns the single explanatory string. -/
theorem C7_no_credential (net : String → PlacesResponse)
    (location specialization : String) :
    get_doctors none net location specialization =
      ([], ["Google Maps API Key not found. Cannot fetch doctor recommendations."]) ∧
    (get_doctors none net location specialization).2.length = 1 :=
  ⟨rfl, rfl⟩

/-- C8: `get_doctors` is a deterministic function of its inputs and of the
backend's responses: two calls with equal location, equal specialization and
a backend answering identically return identical request traces and
identical ordered result lists (the embedding is pure, matching the absence
of any mutable state in the source function). -/
theorem C8_deterministic (key : Option String)
    (net net2 : String → PlacesResponse)
    (location specialization location2 specialization2 : String)
    (hloc : location = location2) (hspec : specialization = specialization2)
    (hnet : ∀ u, net u = net2 u) :
    get_doctors key net location specialization =
      get_doctors key net2 location2 specialization2 := by
  subst hloc
  subst hspec
  have hfun : net = net2 := funext hnet
  subst hfun
  rfl

/-- Witness for C8 with two syntactically distinct but pointwise-equal
backends. -/
theorem C8_deterministic_witness :
    ("Jaipur" = "Jaipur") ∧
    (∀ u, ((fun _ => (⟨200, some [⟨"Dr. M", "Addr M"⟩]⟩ : PlacesResponse)) :
          String → PlacesResponse) u =
      (fun _ => (⟨200, (some [⟨"Dr. M", "Addr M"⟩]).map id⟩ : PlacesResponse)) u) ∧
    get_doctors (some "KEY")
        (fun _ => (⟨200, some [⟨"Dr. M", "Addr M"⟩]⟩ : PlacesResponse))
        "Jaipur" "Oncologist" =
      get_doctors (some "KEY")
        (fun _ => (⟨200, (some [⟨"Dr. M", "Addr M"⟩]).map id⟩ : PlacesResponse))
        "Jaipur" "Oncologist" :=
  ⟨rfl, fun _ => rfl,
    C8_deterministic (some "KEY") _ _ "Jaipur" "Oncologist" "Jaipur" "Oncologist"
      rfl rfl (fun _ => rfl)⟩

/-- C10: on every return path the returned sequence has at most 5 elements,
and a 200 response whose results array is empty or absent yields the empty
sequence rather than an error. -/
theorem C10_result_bounded (key : Option String) (net : String → PlacesResponse)
    (location specialization : String) :
    (get_doctors key net location specialization).2.length ≤ 5 ∧
    (∀ k, key = some k →
      (net (doctorsUrl k location specialization)).status_code = 200 →
      (net (doctorsUrl k location specialization)).resultsField.getD [] = [] →
      (get_doctors key net location specialization).2 = []) := by
  constructor
  · match key with
    | none => simp [get_doctors]
    | some k =>
      by_cases h : (net (doctorsUrl k location specialization)).status_code = 200
      · simp only [get_doctors, h]
        simp [List.length_take]
      · simp [get_doctors, h]
  · rintro k rfl h1 h2
    simp [get_doctors, h1, h2]

/-- Witness for C10 at a 200 response with an empty results array. -/
theorem C10_result_bounded_witness :
    (some "KEY" = some "KEY") ∧
    (get_doctors (some "KEY")
      (fun _ => { status_code := 200, resultsField := some [] })
      "Delhi" "Neurologist").2.length ≤ 5 ∧
    (get_doctors (some "KEY")
      (fun _ => { status_code := 200, resultsField := some [] })
      "Delhi" "Neurologist").2 = [] :=
  ⟨rfl,
   (C10_result_bounded (some "KEY")
      (fun _ => { status_code := 200, resultsField := some [] })
      "Delhi" "Neurologist").1,
   (C10_result_bounded (some "KEY")
      (fun _ => { status_code := 200, resultsField := some [] })
      "Delhi" "Neurologist").2 "KEY" rfl rfl rfl⟩

/-- Counterexample to C9 as stated: in the pdf branch, when the analysis
call raises an unhandled fault after the temporary file was created, the
`os.unlink` at the end of the block is never reached, so the file is not
deleted on that exit path. -/
theorem C9_counterexample :
    TmpEvent.create "/tmp/r.pdf" ∈
      (pdf_action "/tmp/r.pdf" true (Except.ok ["page one"])
        (fun _ => CallOutcome.fault "boom")).1 ∧
    TmpEvent.unlink "/tmp/r.pdf" ∉
      (pdf_action "/tmp/r.pdf" true (Except.ok ["page one"])
        (fun _ => CallOutcome.fault "boom")).1 := by
  constructor <;> decide

/-- C9 amended: in both analyze branches the temporary file is deleted
exactly on the runs that complete without an unhandled fault; a fault in
image decoding, PDF extraction or the analysis call aborts the action before
the deletion, leaving the file behind (and in the pdf branch no file exists
at all before the button is pressed). -/
theorem C9_cleanup_on_completion (tmp content : String) (openFaults button : Bool)
    (extract : Except String (List String)) (oracle : Nat → CallOutcome) :
    ((image_action tmp openFaults button content oracle).2 = true ↔
      TmpEvent.unlink tmp ∈ (image_action tmp openFaults button content oracle).1) ∧
    (button = true →
      ((pdf_action tmp button extract oracle).2 = true ↔
        TmpEvent.unlink tmp ∈ (pdf_action tmp button extract oracle).1)) ∧
    (button = false → (pdf_action tmp button extract oracle).1 = []) := by
  refine ⟨?_, ?_, ?_⟩
  · cases openFaults with
    | true => simp [image_action]
    | false =>
      cases button with
      | false => simp [image_action]
      | true =>
        cases hres : (analyze_medical_report content "image" oracle).2 <;>
          simp [image_action, hres]
  · intro hb
    subst hb
    cases extract with
    | error e => simp [pdf_action]
    | ok pages =>
      cases hres : (analyze_medical_report (extract_text_from_pdf pages) "text" oracle).2 <;>
        simp [pdf_action, hres]
  · intro hb
    subst hb
    simp [pdf_action]

/-- Witness for the amended C9: a pdf run whose model call succeeds deletes
its temporary file. -/
theorem C9_cleanup_on_completion_witness :
    (true = true) ∧
    TmpEvent.unlink "/tmp/a.pdf" ∈
      (pdf_action "/tmp/a.pdf" true (Except.ok ["p"])
        (fun _ => CallOutcome.ok "fine")).1 :=
  ⟨rfl,
   ((C9_cleanup_on_completion "/tmp/a.pdf" "c" false true (Except.ok ["p"])
      (fun _ => CallOutcome.ok "fine")).2.1 rfl).mp (by decide)⟩

end HealthHack
